import Mathlib

/-!
Shallow embedding of `airflow/sensors/external_task.py`
(`ExternalTaskSensor`, `ExternalTaskMarker`).

Timestamps (Python `datetime`) are modelled as `Int`; `datetime.timedelta`
as `Int`; state labels, dag ids, task ids and file locations as `String`.
Python true division produces a float, modelled as `Rat`.
The database session is modelled as an explicit record of tables.
-/

namespace ExternalTask

/-- A logical timestamp (`datetime.datetime`). -/
abbrev Timestamp := Int

/-- Python truthiness of an `Optional[Collection]` value: `None` and the
empty collection are falsy. -/
def listTruthy {α : Type} (o : Option (List α)) : Bool :=
  match o with
  | none => false
  | some l => !l.isEmpty

/-- Python truthiness of an `Optional[timedelta]`: `None` and the zero
duration are falsy. -/
def deltaTruthy (o : Option Int) : Bool :=
  match o with
  | none => false
  | some d => d != 0

/-- `Modelled from the spec:` the state-label constant `State.SUCCESS`
(`airflow.utils.state` is not part of the excerpt); the spec gives the
default allowed states as `{SUCCESS}`. -/
def State.success : String := "success"

/-- `Modelled from the spec:` the two permitted state vocabularies
(`State.task_states` / `State.dag_states` of `airflow.utils.state`, not in
the excerpt): step-level vocabulary when step ids are set, workflow-run
level vocabulary otherwise. Kept abstract as a parameter. -/
structure StateVocab where
  task_states : List String
  dag_states : List String

/-- A row of the `TaskInstance` table, restricted to the columns the
sensor queries. -/
structure TIRow where
  dag_id : String
  task_id : String
  state : String
  execution_date : Timestamp
deriving DecidableEq, Repr

/-- A row of the `DagRun` table, restricted to the columns the sensor
queries. -/
structure DRRow where
  dag_id : String
  state : String
  execution_date : Timestamp
deriving DecidableEq, Repr

/-- A row of the `DagModel` table (`dag_id`, `fileloc`). -/
structure DagModelRow where
  dag_id : String
  fileloc : String
deriving DecidableEq, Repr

/-- The read-only world the sensor queries: the session's tables, the
filesystem (`os.path.exists`) and the parsed dag bags
(`DagBag(fileloc).get_dag(dag_id)` yielding that dag's task ids). -/
structure DB where
  task_instances : List TIRow
  dag_runs : List DRRow
  dag_models : List DagModelRow
  existing_files : List String
  dag_tasks : List ((String × String) × List String)

/-- `DagBag(fileloc).get_dag(dag_id).has_task` data: the task ids of the
dag parsed from `fileloc`, empty when absent. -/
def DB.tasksOf (db : DB) (fileloc dag_id : String) : List String :=
  match db.dag_tasks.find? (fun p => p.1 == (fileloc, dag_id)) with
  | some p => p.2
  | none => []

/-- The result of target-date resolution before the `isinstance(dttm, list)`
normalization: `execution_date_fn` may return one timestamp or a list. -/
inductive Dttm where
  | single (t : Timestamp)
  | multi (ts : List Timestamp)

/-- The state of one `ExternalTaskSensor` instance: the immutable
configuration set in `__init__` plus the mutable
`_has_checked_existence` latch. -/
structure Sensor where
  external_dag_id : String
  external_task_id : Option String
  external_task_ids : Option (List String)
  allowed_states : List String
  failed_states : List String
  execution_delta : Option Int
  execution_date_fn : Option (Timestamp → Dttm)
  check_existence : Bool
  has_checked_existence : Bool

/-- The exceptions `poke`/`__init__` helpers can raise at poll time. -/
inductive PokeErr where
  | dagNotFound (dag_id : String)
  | dagDeleted (dag_id : String)
  | taskNotFound (dag_id task_id : String)
  | tasksFailed (dag_id : String) (task_ids : List String)
  | dagFailed (dag_id : String)
deriving DecidableEq, Repr

/-- The existence-check family of exceptions (raised only by
`_check_for_existence`). -/
def PokeErr.isExistence : PokeErr → Bool
  | .dagNotFound _ => true
  | .dagDeleted _ => true
  | .taskNotFound _ _ => true
  | .tasksFailed _ _ => false
  | .dagFailed _ => false

/-- The host-supplied context; the sensor reads `context['logical_date']`. -/
structure Context where
  logical_date : Timestamp

/-- The raw `session.query(func.count())` over `TaskInstance` filtered by
`dag_id`, `task_id IN task_ids`, `state IN states`,
`execution_date IN dttm_filter`. -/
def rawTICount (dag_id : String) (task_ids : List String)
    (states : List String) (dttm_filter : List Timestamp) (db : DB) : Nat :=
  (db.task_instances.filter (fun r =>
    r.dag_id == dag_id && task_ids.contains r.task_id &&
    states.contains r.state && dttm_filter.contains r.execution_date)).length

/-- The raw `session.query(func.count())` over `DagRun` filtered by
`dag_id`, `state IN states`, `execution_date IN dttm_filter`. -/
def rawDRCount (dag_id : String) (states : List String)
    (dttm_filter : List Timestamp) (db : DB) : Nat :=
  (db.dag_runs.filter (fun r =>
    r.dag_id == dag_id && states.contains r.state &&
    dttm_filter.contains r.execution_date)).length

/-- `ExternalTaskSensor.get_count`: count of records against the dttm
filter and states, normalized by `len(external_task_ids)` when task ids
are truthy (Python true division, hence `Rat`). -/
def Sensor.get_count (s : Sensor) (dttm_filter : List Timestamp) (db : DB)
    (states : List String) : Rat :=
  if dttm_filter.isEmpty then 0
  else if listTruthy s.external_task_ids then
    let tids := s.external_task_ids.getD []
    (rawTICount s.external_dag_id tids states dttm_filter db : Rat) /
      (tids.length : Rat)
  else
    (rawDRCount s.external_dag_id states dttm_filter db : Rat)

/-- `ExternalTaskSensor._check_for_existence`: look up the `DagModel` row
for the external dag, check its file still exists, check every external
task id is a task of the refreshed dag; on full success set
`_has_checked_existence = True`. Errors propagate without setting the
latch. -/
def Sensor.check_for_existence (s : Sensor) (db : DB) :
    Except PokeErr Sensor :=
  match db.dag_models.find? (fun d => d.dag_id == s.external_dag_id) with
  | none => .error (.dagNotFound s.external_dag_id)
  | some dag_to_wait =>
    if !db.existing_files.contains dag_to_wait.fileloc then
      .error (.dagDeleted s.external_dag_id)
    else if listTruthy s.external_task_ids then
      match (s.external_task_ids.getD []).find? (fun tid =>
          !(db.tasksOf dag_to_wait.fileloc s.external_dag_id).contains tid) with
      | some tid => .error (.taskNotFound s.external_dag_id tid)
      | none => .ok { s with has_checked_existence := true }
    else .ok { s with has_checked_existence := true }

/-- The existence-check phase of `poke` (lines `if self.check_existence and
not self._has_checked_existence: self._check_for_existence(session)`):
runs the check only when configured and not yet latched. -/
def Sensor.existenceStep (s : Sensor) (db : DB) : Except PokeErr Sensor :=
  if s.check_existence && !s.has_checked_existence then
    s.check_for_existence db
  else .ok s

/-- Target-date resolution of `poke` (its first lines): `logical_date -
execution_delta` when the delta is truthy, the `execution_date_fn` result
when that is set, otherwise `logical_date`; then
`dttm if isinstance(dttm, list) else [dttm]`. -/
def Sensor.resolveTargets (s : Sensor) (ctx : Context) : List Timestamp :=
  let dttm : Dttm :=
    if deltaTruthy s.execution_delta then
      .single (ctx.logical_date - s.execution_delta.getD 0)
    else
      match s.execution_date_fn with
      | some f => f ctx.logical_date
      | none => .single ctx.logical_date
  match dttm with
  | .single t => [t]
  | .multi ts => ts

/-- `ExternalTaskSensor.poke`: resolve targets, run the existence check at
most once, query the allowed-state count, query the failed-state count
when failed states are configured (else `-1`), raise when the failed
count equals the number of targets, otherwise return
`count_allowed == len(dttm_filter)`. The returned `Sensor` is the
instance's state after the call. -/
def Sensor.poke (s : Sensor) (ctx : Context) (db : DB) :
    Except PokeErr Bool × Sensor :=
  let dttm_filter := s.resolveTargets ctx
  match s.existenceStep db with
  | .error e => (.error e, s)
  | .ok s1 =>
    let count_allowed := s1.get_count dttm_filter db s1.allowed_states
    let count_failed : Rat :=
      if !s1.failed_states.isEmpty then
        s1.get_count dttm_filter db s1.failed_states
      else -1
    if count_failed = (dttm_filter.length : Rat) then
      if listTruthy s1.external_task_ids then
        (.error (.tasksFailed s1.external_dag_id
          (s1.external_task_ids.getD [])), s1)
      else
        (.error (.dagFailed s1.external_dag_id), s1)
    else
      (.ok (decide (count_allowed = (dttm_filter.length : Rat))), s1)

/-- The keyword arguments of `ExternalTaskSensor.__init__`. -/
structure InitArgs where
  external_dag_id : String
  external_task_id : Option String := none
  external_task_ids : Option (List String) := none
  allowed_states : Option (List String) := none
  failed_states : Option (List String) := none
  execution_delta : Option Int := none
  execution_date_fn : Option (Timestamp → Dttm) := none
  check_existence : Bool := false

/-- The construction-time exceptions of `ExternalTaskSensor.__init__`, in
source order. -/
inductive InitErr where
  | duplicateStates
  | bothTaskIdForms
  | invalidTaskStates
  | duplicateTaskIds
  | invalidDagStates
  | bothScheduleForms
deriving DecidableEq, Repr

/-- `ExternalTaskSensor.__init__`: defaults the allowed/failed state lists
(Python truthiness: an empty iterable also defaults), rejects overlapping
allowed/failed states, rejects both task-id forms, normalizes a single
task id to a one-element list, validates the state vocabulary (task-level
when the task-id list is truthy, dag-level otherwise), rejects duplicate
task ids, rejects both schedule forms, then stores the fields with the
existence latch cleared. -/
def Sensor.init (vocab : StateVocab) (a : InitArgs) : Except InitErr Sensor :=
  let allowed_states :=
    if listTruthy a.allowed_states then a.allowed_states.getD []
    else [State.success]
  let failed_states :=
    if listTruthy a.failed_states then a.failed_states.getD [] else []
  let total_states := allowed_states ++ failed_states
  if failed_states.any (fun x => allowed_states.contains x) then
    .error .duplicateStates
  else if a.external_task_id.isSome && a.external_task_ids.isSome then
    .error .bothTaskIdForms
  else
    let external_task_ids :=
      match a.external_task_id with
      | some tid => some [tid]
      | none => a.external_task_ids
    let vocabCheck : Except InitErr Unit :=
      if listTruthy external_task_ids then
        if !(total_states.all (fun x => vocab.task_states.contains x)) then
          .error .invalidTaskStates
        else if (external_task_ids.getD []).length >
            (external_task_ids.getD []).eraseDups.length then
          .error .duplicateTaskIds
        else .ok ()
      else if !(total_states.all (fun x => vocab.dag_states.contains x)) then
        .error .invalidDagStates
      else .ok ()
    match vocabCheck with
    | .error e => .error e
    | .ok _ =>
      if a.execution_delta.isSome && a.execution_date_fn.isSome then
        .error .bothScheduleForms
      else
        .ok {
          external_dag_id := a.external_dag_id
          external_task_id := a.external_task_id
          external_task_ids := external_task_ids
          allowed_states := allowed_states
          failed_states := failed_states
          execution_delta := a.execution_delta
          execution_date_fn := a.execution_date_fn
          check_existence := a.check_existence
          has_checked_existence := false }

/-- The runtime type of the `execution_date` argument of
`ExternalTaskMarker.__init__` (typed `str | datetime.datetime` but checked
dynamically): a string, a datetime, or a value of any other type. -/
inductive ExecDateArg where
  | str (v : String)
  | dt (v : Timestamp)
  | other
deriving DecidableEq, Repr

/-- The `isoformat()` serialization of a modelled timestamp (ISO-8601
string form). -/
def Timestamp.isoformat (t : Timestamp) : String := toString t

/-- The construction-time exceptions of `ExternalTaskMarker.__init__`. -/
inductive MarkerErr where
  | execDateType
  | recursionDepth
deriving DecidableEq, Repr

/-- The stored fields of an `ExternalTaskMarker` (its `execution_date` is
always a string after construction). -/
structure Marker where
  external_dag_id : String
  external_task_id : String
  execution_date : String
  recursion_depth : Int
deriving DecidableEq, Repr

/-- `ExternalTaskMarker.__init__`: a datetime `execution_date` is stored as
its `isoformat()` string, a string is stored unchanged, any other type
raises `TypeError`; then a non-positive `recursion_depth` raises
`ValueError`. -/
def Marker.init (external_dag_id external_task_id : String)
    (execution_date : ExecDateArg) (recursion_depth : Int) :
    Except MarkerErr Marker :=
  let stored : Except MarkerErr String :=
    match execution_date with
    | .dt v => .ok (Timestamp.isoformat v)
    | .str v => .ok v
    | .other => .error .execDateType
  match stored with
  | .error e => .error e
  | .ok ed =>
    if recursion_depth ≤ 0 then .error .recursionDepth
    else .ok {
      external_dag_id := external_dag_id
      external_task_id := external_task_id
      execution_date := ed
      recursion_depth := recursion_depth }

/-! Concrete fixtures used to witness the theorems below. -/

/-- A context whose logical date is 5. -/
def ctx5 : Context := ⟨5⟩

/-- An empty world: no records, no registered dags, no files. -/
def dbEmpty : DB := ⟨[], [], [], [], []⟩

/-- One successful DagRun of dag `W` at timestamp 5. -/
def dbOneSuccessRun : DB := ⟨[], [⟨"W", "success", 5⟩], [], [], []⟩

/-- One failed DagRun of dag `W` at timestamp 5. -/
def dbOneFailedRun : DB := ⟨[], [⟨"W", "failed", 5⟩], [], [], []⟩

/-- A dag-level sensor on dag `W` with the default allowed states and no
failed states. -/
def sensorDag : Sensor :=
  ⟨"W", none, none, ["success"], [], none, none, false, false⟩

/-- `sensorDag` with `failed_states = ["failed"]`. -/
def sensorDagFailed : Sensor := { sensorDag with failed_states := ["failed"] }

/-- A sensor on tasks `A`, `B` of dag `W` whose date-mapping function
returns the two targets 1 and 2. -/
def sensorSteps : Sensor :=
  ⟨"W", none, some ["A", "B"], ["success"], [], none,
    some (fun _ => .multi [1, 2]), false, false⟩

/-- Four successful task instances: tasks `A`, `B` at both targets. -/
def dbStepsFour : DB :=
  ⟨[⟨"W", "A", "success", 1⟩, ⟨"W", "A", "success", 2⟩,
    ⟨"W", "B", "success", 1⟩, ⟨"W", "B", "success", 2⟩], [], [], [], []⟩

/-- Only three of the four task instances are successful. -/
def dbStepsThree : DB :=
  ⟨[⟨"W", "A", "success", 1⟩, ⟨"W", "A", "success", 2⟩,
    ⟨"W", "B", "success", 1⟩], [], [], [], []⟩

/-- `sensorDag` with a date-mapping function returning no targets. -/
def sensorEmptyTargets : Sensor :=
  { sensorDag with execution_date_fn := some (fun _ => .multi []) }

/-- `sensorDag` with `check_existence = True` (latch still unset). -/
def sensorCheck : Sensor := { sensorDag with check_existence := true }

/-- `sensorCheck` after a successful existence check (latch set). -/
def sensorChecked : Sensor :=
  { sensorCheck with has_checked_existence := true }

/-- `sensorDag` with a fixed execution delta of 2. -/
def sensorDelta : Sensor := { sensorDag with execution_delta := some 2 }

/-- A vocabulary admitting `success` and `failed` at both levels. -/
def vocabTest : StateVocab := ⟨["success", "failed"], ["success", "failed"]⟩

/-- Constructor arguments with overlapping allowed and failed states. -/
def argsOverlap : InitArgs :=
  { external_dag_id := "W", allowed_states := some ["success"],
    failed_states := some ["success"] }

/-- Constructor arguments giving both the singular task id and an empty
plural list. -/
def argsTidEmpty : InitArgs :=
  { external_dag_id := "W", external_task_id := some "t",
    external_task_ids := some [] }

/-- Constructor arguments giving only the singular task id. -/
def argsTidNone : InitArgs :=
  { external_dag_id := "W", external_task_id := some "t" }

/-- Constructor arguments with only the dag id. -/
def argsPlain : InitArgs := { external_dag_id := "W" }

/-- The sensor produced by `argsTidNone`. -/
def sensorFromTid : Sensor :=
  ⟨"W", some "t", some ["t"], ["success"], [], none, none, false, false⟩

/-- The sensor produced by `argsPlain` with an empty task-id list. -/
def sensorEmptyTids : Sensor :=
  ⟨"W", none, some [], ["success"], [], none, none, false, false⟩

/-- The existence phase either leaves the instance unchanged or only sets
the latch. -/
lemma existenceStep_ok_cases (s : Sensor) (db : DB) (s1 : Sensor)
    (h : s.existenceStep db = .ok s1) :
    s1 = s ∨ s1 = { s with has_checked_existence := true } := by
  unfold Sensor.existenceStep at h
  split at h
  · unfold Sensor.check_for_existence at h
    split at h
    · exact absurd h (by simp)
    · split at h
      · exact absurd h (by simp)
      · split at h
        · split at h
          · exact absurd h (by simp)
          · right
            exact (Except.ok.inj h).symm
        · right
          exact (Except.ok.inj h).symm
  · left
    exact (Except.ok.inj h).symm

/-- `get_count` does not read the existence latch, so the existence phase
does not change its result. -/
lemma get_count_existenceStep (s : Sensor) (db : DB) (s1 : Sensor)
    (h : s.existenceStep db = .ok s1) (d : List Timestamp) (db' : DB)
    (st : List String) : s1.get_count d db' st = s.get_count d db' st := by
  rcases existenceStep_ok_cases s db s1 h with h1 | h1 <;> subst h1 <;> rfl

/-- The existence phase preserves every configuration field. -/
lemma existenceStep_fields (s : Sensor) (db : DB) (s1 : Sensor)
    (h : s.existenceStep db = .ok s1) :
    s1.external_dag_id = s.external_dag_id ∧
    s1.external_task_ids = s.external_task_ids ∧
    s1.allowed_states = s.allowed_states ∧
    s1.failed_states = s.failed_states := by
  rcases existenceStep_ok_cases s db s1 h with h1 | h1 <;> subst h1 <;>
    exact ⟨rfl, rfl, rfl, rfl⟩

/-- C1: for every non-empty resolved target sequence, a `poke` call that
returns normally returns `true` iff the allowed-state count computed by
`get_count` over the target sequence equals the number of targets. -/
theorem C1_poke_true_iff_allowed_count (s : Sensor) (ctx : Context)
    (db : DB) (b : Bool)
    (hne : s.resolveTargets ctx ≠ [])
    (hret : (s.poke ctx db).1 = .ok b) :
    b = true ↔ s.get_count (s.resolveTargets ctx) db s.allowed_states =
      ((s.resolveTargets ctx).length : Rat) := by
  unfold Sensor.poke at hret
  rcases hex : s.existenceStep db with e | s1
  · rw [hex] at hret
    simp at hret
  · rw [hex] at hret
    dsimp only at hret
    split at hret <;> split at hret
    all_goals
      first
        | (split at hret <;> exact absurd hret (by simp))
        | (have hb : b = decide (s1.get_count (s.resolveTargets ctx) db
              s1.allowed_states = ((s.resolveTargets ctx).length : Rat)) :=
            (Except.ok.inj hret).symm
           rw [hb, decide_eq_true_iff, get_count_existenceStep s db s1 hex,
             (existenceStep_fields s db s1 hex).2.2.1])

/-- C1 witness: with one matching successful run of `W` at the single
target 5, `poke` returns `true`, and the theorem yields the count
equality. -/
theorem C1_poke_true_iff_allowed_count_witness :
    sensorDag.get_count (sensorDag.resolveTargets ctx5) dbOneSuccessRun
      sensorDag.allowed_states =
      ((sensorDag.resolveTargets ctx5).length : Rat) :=
  (C1_poke_true_iff_allowed_count sensorDag ctx5 dbOneSuccessRun true
    (by decide)
    (by norm_num [Sensor.poke, Sensor.existenceStep, Sensor.resolveTargets,
      Sensor.get_count, rawDRCount, listTruthy, deltaTruthy, sensorDag,
      dbOneSuccessRun, ctx5, List.filter])).mp rfl

/-- C2: whenever failed states are configured, the existence phase does
not raise, and the failed-state count over the resolved targets equals
the number of targets, `poke` raises the dependency-failed error naming
the external dag id and, when task ids are configured, the task ids —
regardless of the allowed-state count. -/
theorem C2_all_failed_raises (s : Sensor) (s1 : Sensor) (ctx : Context)
    (db : DB)
    (hex : s.existenceStep db = .ok s1)
    (hfs : s.failed_states ≠ [])
    (hcnt : s.get_count (s.resolveTargets ctx) db s.failed_states =
      ((s.resolveTargets ctx).length : Rat)) :
    (s.poke ctx db).1 = .error
      (if listTruthy s.external_task_ids then
        .tasksFailed s.external_dag_id (s.external_task_ids.getD [])
      else .dagFailed s.external_dag_id) := by
  obtain ⟨hdag, htids, hall, hfail⟩ := existenceStep_fields s db s1 hex
  unfold Sensor.poke
  rw [hex]
  dsimp only
  rw [hfail, get_count_existenceStep s db s1 hex]
  have hne : s.failed_states.isEmpty = false := by
    cases hh : s.failed_states with
    | nil => exact absurd hh hfs
    | cons a l => rfl
  rw [hne]
  simp only [Bool.not_false, if_true, hcnt, if_pos rfl, htids, hdag]
  by_cases ht : listTruthy s.external_task_ids = true <;> simp [ht]

/-- C2 witness: with `failed_states = ["failed"]` and the single target 5
failed, `poke` raises the dag-failed error. -/
theorem C2_all_failed_raises_witness :
    (sensorDagFailed.poke ctx5 dbOneFailedRun).1 = .error
      (if listTruthy sensorDagFailed.external_task_ids then
        .tasksFailed sensorDagFailed.external_dag_id
          (sensorDagFailed.external_task_ids.getD [])
      else .dagFailed sensorDagFailed.external_dag_id) :=
  C2_all_failed_raises sensorDagFailed sensorDagFailed ctx5 dbOneFailedRun
    rfl (by decide)
    (by norm_num [Sensor.get_count, Sensor.resolveTargets, rawDRCount,
      listTruthy, deltaTruthy, sensorDagFailed, sensorDag, dbOneFailedRun,
      ctx5, List.filter])

/-- C3: with a truthy task-id list, `get_count` is the raw matching
task-instance count divided exactly by the number of task ids; with 2
task ids and 2 targets, 4 matching rows give count 2 and verdict `true`,
while 3 matching rows give 3/2, which differs from 2, and verdict
`false`. -/
theorem C3_get_count_normalizes :
    (∀ (s : Sensor) (d : List Timestamp) (db : DB) (st : List String),
      listTruthy s.external_task_ids = true → d ≠ [] →
      s.get_count d db st =
        (rawTICount s.external_dag_id (s.external_task_ids.getD []) st d
          db : Rat) / ((s.external_task_ids.getD []).length : Rat)) ∧
    sensorSteps.get_count [1, 2] dbStepsFour ["success"] = 2 ∧
    (sensorSteps.poke ctx5 dbStepsFour).1 = .ok true ∧
    sensorSteps.get_count [1, 2] dbStepsThree ["success"] = 3 / 2 ∧
    ((3 : Rat) / 2 ≠ 2) ∧
    (sensorSteps.poke ctx5 dbStepsThree).1 = .ok false := by
  refine ⟨?_, ?_, ?_, ?_, by norm_num, ?_⟩
  · intro s d db st ht hd
    unfold Sensor.get_count
    rw [ht]
    cases d with
    | nil => exact absurd rfl hd
    | cons t ts => rfl
  · norm_num [Sensor.get_count, rawTICount, listTruthy, sensorSteps,
      dbStepsFour, List.filter]
  · norm_num [Sensor.poke, Sensor.existenceStep, Sensor.resolveTargets,
      Sensor.get_count, rawTICount, listTruthy, deltaTruthy, sensorSteps,
      dbStepsFour, List.filter]
  · norm_num [Sensor.get_count, rawTICount, listTruthy, sensorSteps,
      dbStepsThree, List.filter]
  · norm_num [Sensor.poke, Sensor.existenceStep, Sensor.resolveTargets,
      Sensor.get_count, rawTICount, listTruthy, deltaTruthy, sensorSteps,
      dbStepsThree, List.filter]

/-- C3 witness: the division form of `get_count` instantiated at the
four-row scenario. -/
theorem C3_get_count_normalizes_witness :
    sensorSteps.get_count [1, 2] dbStepsFour ["success"] =
      (rawTICount sensorSteps.external_dag_id
        (sensorSteps.external_task_ids.getD []) ["success"] [1, 2]
        dbStepsFour : Rat) /
        ((sensorSteps.external_task_ids.getD []).length : Rat) :=
  C3_get_count_normalizes.1 sensorSteps [1, 2] dbStepsFour ["success"] rfl
    (by decide)

/-- C4 counterexample: with an empty resolved target set and no failed
states configured, `poke` returns `true` — it does report the dependency
as satisfied, contrary to the claim. -/
theorem C4_counterexample :
    sensorEmptyTargets.resolveTargets ctx5 = [] ∧
    sensorEmptyTargets.failed_states = [] ∧
    (sensorEmptyTargets.poke ctx5 dbEmpty).1 = .ok true :=
  ⟨rfl, rfl, by norm_num [Sensor.poke, Sensor.existenceStep,
    Sensor.resolveTargets, Sensor.get_count, listTruthy, deltaTruthy,
    sensorEmptyTargets, sensorDag, dbEmpty]⟩

/-- C4 (amended): when the resolved target set is empty, no failed states
are configured and the existence phase does not raise, `poke` reports the
dependency as satisfied (returns `true`), since both the allowed-state
count and the target count are zero. -/
theorem C4_empty_targets_returns_true (s : Sensor) (s1 : Sensor)
    (ctx : Context) (db : DB)
    (hex : s.existenceStep db = .ok s1)
    (hempty : s.resolveTargets ctx = [])
    (hfs : s.failed_states = []) :
    (s.poke ctx db).1 = .ok true := by
  unfold Sensor.poke
  rw [hex]
  dsimp only
  rw [hempty, (existenceStep_fields s db s1 hex).2.2.2, hfs]
  norm_num [Sensor.get_count]

/-- C4 witness: the amended theorem applied to the concrete sensor whose
mapping function returns no targets. -/
theorem C4_empty_targets_returns_true_witness :
    (sensorEmptyTargets.poke ctx5 dbEmpty).1 = .ok true :=
  C4_empty_targets_returns_true sensorEmptyTargets sensorEmptyTargets ctx5
    dbEmpty rfl rfl rfl

/-- C5 counterexample: a first `poke` whose existence check raises leaves
the latch unset and the instance unchanged, so a second `poke` on the
same instance runs the check and raises the not-found error again — the
check is not executed at most once, and the error is not raised at most
once per lifetime. -/
theorem C5_counterexample :
    (sensorCheck.poke ctx5 dbEmpty).1 = .error (.dagNotFound "W") ∧
    (sensorCheck.poke ctx5 dbEmpty).2 = sensorCheck ∧
    ((sensorCheck.poke ctx5 dbEmpty).2.poke ctx5 dbEmpty).1 =
      .error (.dagNotFound "W") ∧
    ((sensorCheck.poke ctx5 dbEmpty).2.poke ctx5 dbEmpty).2.has_checked_existence
      = false :=
  ⟨rfl, rfl, rfl, rfl⟩

/-- C5 (amended): the existence check is executed at most once
successfully — once a check has completed and set the latch, every later
`poke` preserves the latch, never raises an existence-check error, and
its outcome is independent of the workflow registry (the check is not
run); a check that raises leaves the latch unset and may run and raise
again on a later poke. -/
theorem C5_existence_check_latched (s : Sensor) (ctx : Context) (db : DB)
    (hchecked : s.has_checked_existence = true) :
    ((s.poke ctx db).2.has_checked_existence = true) ∧
    (∀ e, (s.poke ctx db).1 = .error e → e.isExistence = false) ∧
    (∀ dm fls dt, s.poke ctx ⟨db.task_instances, db.dag_runs, dm, fls, dt⟩ =
      s.poke ctx db) := by
  have hstep : ∀ db' : DB, s.existenceStep db' = .ok s := by
    intro db'
    unfold Sensor.existenceStep
    rw [hchecked]
    simp
  refine ⟨?_, ?_, ?_⟩
  · unfold Sensor.poke
    rw [hstep db]
    dsimp only
    split <;> split <;> first | (split <;> exact hchecked) | exact hchecked
  · intro e he
    unfold Sensor.poke at he
    rw [hstep db] at he
    dsimp only at he
    split at he <;> split at he <;>
      first
        | exact absurd he (by simp)
        | (split at he <;> (rw [← Except.error.inj he]; rfl))
  · intro dm fls dt
    have h2 := hstep ⟨db.task_instances, db.dag_runs, dm, fls, dt⟩
    unfold Sensor.poke
    rw [hstep db, h2]
    rfl

/-- C5 witness: a latched sensor polled against a registry that has since
lost the dag behaves exactly as against the empty registry — the check
does not run again. -/
theorem C5_existence_check_latched_witness :
    sensorChecked.poke ctx5 ⟨dbEmpty.task_instances, dbEmpty.dag_runs,
      [⟨"X", "f"⟩], ["f"], []⟩ = sensorChecked.poke ctx5 dbEmpty :=
  (C5_existence_check_latched sensorChecked ctx5 dbEmpty rfl).2.2
    [⟨"X", "f"⟩] ["f"] []

/-- A successful construction yields exactly the record `__init__` stores,
and the allowed/failed intersection check was false. -/
lemma init_ok_shape (vocab : StateVocab) (a : InitArgs) (s : Sensor)
    (h : Sensor.init vocab a = .ok s) :
    s = { external_dag_id := a.external_dag_id
          external_task_id := a.external_task_id
          external_task_ids :=
            match a.external_task_id with
            | some tid => some [tid]
            | none => a.external_task_ids
          allowed_states :=
            if listTruthy a.allowed_states then a.allowed_states.getD []
            else [State.success]
          failed_states :=
            if listTruthy a.failed_states then a.failed_states.getD [] else []
          execution_delta := a.execution_delta
          execution_date_fn := a.execution_date_fn
          check_existence := a.check_existence
          has_checked_existence := false } ∧
    (if listTruthy a.failed_states then a.failed_states.getD [] else []).any
      (fun x => (if listTruthy a.allowed_states then a.allowed_states.getD []
        else [State.success]).contains x) = false := by
  unfold Sensor.init at h
  dsimp only at h
  repeat' split at h
  all_goals simp_all
  all_goals
    intro x hx hxe
    subst hxe
    simp_all

/-- C6: providing allowed-states and failed-states collections with a
non-empty intersection makes construction fail with the duplicate-states
error, and every successfully constructed sensor has disjoint allowed and
failed states — so poll time never sees an overlap. -/
theorem C6_overlap_rejected_at_construction :
    (∀ (vocab : StateVocab) (a : InitArgs) (x : String) (la lf : List String),
      a.allowed_states = some la → a.failed_states = some lf →
      x ∈ la → x ∈ lf → Sensor.init vocab a = .error .duplicateStates) ∧
    (∀ (vocab : StateVocab) (a : InitArgs) (s : Sensor),
      Sensor.init vocab a = .ok s →
      ∀ x, x ∈ s.allowed_states → x ∉ s.failed_states) := by
  constructor
  · intro vocab a x la lf hla hlf hxa hxf
    have hta : listTruthy a.allowed_states = true := by
      rw [hla]
      cases la with
      | nil => cases hxa
      | cons y l => rfl
    have htf : listTruthy a.failed_states = true := by
      rw [hlf]
      cases lf with
      | nil => cases hxf
      | cons y l => rfl
    have hany : ((if listTruthy a.failed_states then a.failed_states.getD []
        else []).any (fun y =>
          (if listTruthy a.allowed_states then a.allowed_states.getD []
            else [State.success]).contains y)) = true := by
      rw [hta, htf, if_pos rfl, if_pos rfl, hla, hlf]
      rw [List.any_eq_true]
      exact ⟨x, hxf, by simpa using hxa⟩
    unfold Sensor.init
    dsimp only
    rw [if_pos hany]
  · intro vocab a s hok x hxa
    obtain ⟨hs, hdisj⟩ := init_ok_shape vocab a s hok
    subst hs
    rw [List.any_eq_false] at hdisj
    intro hxf
    exact hdisj x hxf (by simpa using hxa)

/-- C6 witness: constructing with `allowed_states = failed_states =
["success"]` is rejected with the duplicate-states error. -/
theorem C6_overlap_rejected_at_construction_witness :
    Sensor.init vocabTest argsOverlap = .error .duplicateStates :=
  C6_overlap_rejected_at_construction.1 vocabTest argsOverlap "success"
    ["success"] ["success"] rfl rfl (by simp) (by simp)

/-- C7: with no date-mapping function, a configured execution delta `D`
resolves the targets to exactly `[T - D]`, and with neither a delta nor a
mapping function they resolve to exactly `[T]`. -/
theorem C7_resolve_targets (s : Sensor) (ctx : Context)
    (hfn : s.execution_date_fn = none) :
    (∀ D, s.execution_delta = some D →
      s.resolveTargets ctx = [ctx.logical_date - D]) ∧
    (s.execution_delta = none → s.resolveTargets ctx = [ctx.logical_date]) := by
  constructor
  · intro D hD
    unfold Sensor.resolveTargets
    rw [hD, hfn]
    by_cases h0 : D = 0
    · subst h0
      simp [deltaTruthy]
    · simp [deltaTruthy, h0]
  · intro hD
    unfold Sensor.resolveTargets
    rw [hD, hfn]
    simp [deltaTruthy]

/-- C7 witness: a delta of 2 at logical date 5 resolves to `[3]`, and no
delta resolves to `[5]`. -/
theorem C7_resolve_targets_witness :
    sensorDelta.resolveTargets ctx5 = [ctx5.logical_date - 2] ∧
    sensorDag.resolveTargets ctx5 = [ctx5.logical_date] :=
  ⟨(C7_resolve_targets sensorDelta ctx5 rfl).1 2 rfl,
    (C7_resolve_targets sensorDag ctx5 rfl).2 rfl⟩

/-- C8: on a first poke (`check_existence` set, latch unset) against a
registry with no row for the external dag, `poke` raises the not-found
error and leaves the instance unchanged, whatever the contents of the
task-instance and dag-run tables — no state-count query affects the
outcome. -/
theorem C8_notfound_before_count (s : Sensor) (ctx : Context) (db : DB)
    (ti : List TIRow) (dr : List DRRow)
    (hck : s.check_existence = true)
    (hfirst : s.has_checked_existence = false)
    (hnodag : db.dag_models.find? (fun d => d.dag_id == s.external_dag_id) =
      none) :
    s.poke ctx ⟨ti, dr, db.dag_models, db.existing_files, db.dag_tasks⟩ =
      (.error (.dagNotFound s.external_dag_id), s) := by
  have hstep : s.existenceStep ⟨ti, dr, db.dag_models, db.existing_files,
      db.dag_tasks⟩ = .error (.dagNotFound s.external_dag_id) := by
    unfold Sensor.existenceStep Sensor.check_for_existence
    rw [hck, hfirst]
    dsimp only
    rw [hnodag]
    rfl
  unfold Sensor.poke
  rw [hstep]

/-- C8 witness: the unregistered-dag failure is unchanged by non-empty
count tables. -/
theorem C8_notfound_before_count_witness :
    sensorCheck.poke ctx5 ⟨[⟨"W", "A", "success", 5⟩], [⟨"W", "success", 5⟩],
      dbEmpty.dag_models, dbEmpty.existing_files, dbEmpty.dag_tasks⟩ =
      (.error (.dagNotFound "W"), sensorCheck) :=
  C8_notfound_before_count sensorCheck ctx5 dbEmpty
    [⟨"W", "A", "success", 5⟩] [⟨"W", "success", 5⟩] rfl rfl rfl

/-- C9: a marker construction with a non-positive recursion depth never
succeeds; an execution date that is neither a string nor a datetime
raises the type error; and a datetime execution date is stored as its
ISO-8601 string form. -/
theorem C9_marker_init_validation :
    (∀ (d t : String) (ed : ExecDateArg) (rd : Int) (m : Marker),
      rd ≤ 0 → Marker.init d t ed rd ≠ .ok m) ∧
    (∀ (d t : String) (rd : Int),
      Marker.init d t .other rd = .error .execDateType) ∧
    (∀ (d t : String) (ts : Timestamp) (rd : Int), 0 < rd →
      Marker.init d t (.dt ts) rd =
        .ok ⟨d, t, Timestamp.isoformat ts, rd⟩) := by
  refine ⟨?_, ?_, ?_⟩
  · intro d t ed rd m hrd
    cases ed <;> simp [Marker.init, hrd]
  · intro d t rd
    rfl
  · intro d t ts rd hrd
    unfold Marker.init
    dsimp only
    rw [if_neg (by omega)]

/-- C9 witness: depth 0 is rejected; a datetime execution date of 7 with
depth 3 is stored as its ISO form. -/
theorem C9_marker_init_validation_witness :
    (Marker.init "W" "t" (.str "2021") 0 ≠ .ok ⟨"W", "t", "2021", 0⟩) ∧
    Marker.init "W" "t" (.dt 7) 3 =
      .ok ⟨"W", "t", Timestamp.isoformat 7, 3⟩ :=
  ⟨C9_marker_init_validation.1 "W" "t" (.str "2021") 0 ⟨"W", "t", "2021", 0⟩
    (by decide),
    C9_marker_init_validation.2.2 "W" "t" 7 3 (by decide)⟩

/-- With a falsy task-id list, erasing it entirely does not change
`get_count`. -/
lemma tids_none_get_count (s : Sensor)
    (h : listTruthy s.external_task_ids = false)
    (d : List Timestamp) (db : DB) (st : List String) :
    Sensor.get_count { s with external_task_ids := none } d db st =
      s.get_count d db st := by
  unfold Sensor.get_count
  dsimp only
  rw [h]
  rfl

/-- With a falsy task-id list, erasing it entirely changes the existence
phase only by the erased field. -/
lemma tids_none_existenceStep (s : Sensor) (db : DB)
    (h : listTruthy s.external_task_ids = false) :
    Sensor.existenceStep { s with external_task_ids := none } db =
      (s.existenceStep db).map
        (fun t => { t with external_task_ids := none }) := by
  unfold Sensor.existenceStep Sensor.check_for_existence
  dsimp only
  split
  · split
    · rfl
    · split
      · rfl
      · rw [h]
        dsimp only [listTruthy]
        split
        · rename_i hcontra
          exact absurd hcontra (by simp [listTruthy])
        · rfl
  · rfl

/-- With a falsy task-id list, erasing it entirely does not change the
outcome of `poke`. -/
lemma tids_none_poke_fst (s : Sensor) (ctx : Context) (db : DB)
    (h : listTruthy s.external_task_ids = false) :
    (Sensor.poke { s with external_task_ids := none } ctx db).1 =
      (s.poke ctx db).1 := by
  unfold Sensor.poke
  rw [tids_none_existenceStep s db h]
  rcases hex : s.existenceStep db with e | s1
  · rfl
  · have h1 : listTruthy s1.external_task_ids = false := by
      rcases existenceStep_ok_cases s db s1 hex with h2 | h2 <;> subst h2 <;>
        exact h
    dsimp only [Except.map]
    simp only [tids_none_get_count s1 h1, h1,
      show Sensor.resolveTargets { s with external_task_ids := none } ctx =
        s.resolveTargets ctx from rfl,
      show listTruthy (none : Option (List String)) = false from rfl,
      Bool.false_eq_true, if_false]
    split <;> split <;> rfl

/-- When no singular task id is given, constructing with an empty task-id
list and constructing with none differ only by the stored field. -/
lemma init_empty_tids_map (vocab : StateVocab) (a : InitArgs)
    (htid : a.external_task_id = none) :
    Sensor.init vocab { a with external_task_ids := some [] } =
      (Sensor.init vocab { a with external_task_ids := none }).map
        (fun s => { s with external_task_ids := some [] }) := by
  have h1 : listTruthy (some ([] : List String)) = false := rfl
  have h2 : listTruthy (none : Option (List String)) = false := rfl
  unfold Sensor.init
  dsimp only
  rw [htid]
  simp only [h1, h2, Option.isSome_none, Option.isSome_some, Bool.false_and,
    Bool.false_eq_true, if_false]
  repeat' split
  all_goals rfl

/-- C10 counterexample: with the singular task id also supplied, an empty
`external_task_ids` makes construction fail with the both-forms error
while `external_task_ids = none` constructs a task-level sensor — the two
constructions do not behave identically. -/
theorem C10_counterexample :
    Sensor.init vocabTest argsTidEmpty = .error .bothTaskIdForms ∧
    Sensor.init vocabTest argsTidNone = .ok sensorFromTid :=
  ⟨rfl, rfl⟩

/-- C10 (amended): when the singular task id is not supplied, constructing
with an empty `external_task_ids` behaves identically to constructing
with none: construction fails with the same errors, and on success the
two sensors agree on `get_count` — which queries dag-run records with no
division by a step count — and on the outcome of `poke`. -/
theorem C10_empty_task_ids_behaves_like_none (vocab : StateVocab)
    (a : InitArgs) (htid : a.external_task_id = none) :
    (∀ e, Sensor.init vocab { a with external_task_ids := some [] } =
        .error e ↔
      Sensor.init vocab { a with external_task_ids := none } = .error e) ∧
    (∀ s1 s2,
      Sensor.init vocab { a with external_task_ids := some [] } = .ok s1 →
      Sensor.init vocab { a with external_task_ids := none } = .ok s2 →
      (∀ d db st, s1.get_count d db st = s2.get_count d db st) ∧
      (∀ d db st, d ≠ [] →
        s1.get_count d db st = (rawDRCount s1.external_dag_id st d db : Rat)) ∧
      (∀ ctx db, (s1.poke ctx db).1 = (s2.poke ctx db).1)) := by
  have hmap := init_empty_tids_map vocab a htid
  constructor
  · intro e
    rw [hmap]
    cases hi : Sensor.init vocab { a with external_task_ids := none } <;>
      simp [Except.map]
  · intro s1 s2 h1 h2
    rw [hmap, h2] at h1
    have hs1 : s1 = { s2 with external_task_ids := some [] } := by
      simp only [Except.map] at h1
      exact (Except.ok.inj h1).symm
    obtain ⟨hs2, -⟩ :=
      init_ok_shape vocab { a with external_task_ids := none } s2 h2
    have hs2tids : s2.external_task_ids = none := by
      rw [hs2]
      dsimp only
      rw [htid]
    have heta : { s1 with external_task_ids := none } = s2 := by
      rw [hs1]
      cases s2
      dsimp only at hs2tids
      subst hs2tids
      rfl
    have hf1 : listTruthy s1.external_task_ids = false := by
      rw [hs1]
      rfl
    refine ⟨?_, ?_, ?_⟩
    · intro d db st
      rw [← heta, tids_none_get_count s1 hf1]
    · intro d db st hd
      cases d with
      | nil => exact absurd rfl hd
      | cons t ts =>
        unfold Sensor.get_count
        rw [show (t :: ts).isEmpty = false from rfl, hf1]
        rfl
    · intro ctx db
      rw [← heta, tids_none_poke_fst s1 ctx db hf1]

/-- C10 witness: the sensors built from `argsPlain` with an empty task-id
list and with none poke identically against the one-run world. -/
theorem C10_empty_task_ids_behaves_like_none_witness :
    (sensorEmptyTids.poke ctx5 dbOneSuccessRun).1 =
      (sensorDag.poke ctx5 dbOneSuccessRun).1 :=
  ((C10_empty_task_ids_behaves_like_none vocabTest argsPlain rfl).2
    sensorEmptyTids sensorDag rfl rfl).2.2 ctx5 dbOneSuccessRun

end ExternalTask
